import Mathlib

/-
  Verification of the Kowalski-AI/api service (src/main.go) against its
  natural-language specification.

  The Go program is a single-file HTTP relay: POST /analyze-pr is guarded by
  an X-API-Key middleware, fetches a pull-request diff from the GitHub API,
  dispatches the diff to an LLM provider selected by a string tag, and
  returns a JSON response.  The embedding below models each Go function as a
  pure Lean function, with all external effects (environment, the GitHub
  transport, the OpenAI client) passed in explicitly, and with every
  outbound network call recorded in a trace so that ordering properties
  ("no network I/O before authentication") are statable.
-/

namespace KowalskiAPI

/-- Mirrors the Go `Config` struct (main.go:17-22): four raw environment
strings. -/
structure Config where
  apiKey : String
  openAIKey : String
  githubToken : String
  port : String
deriving DecidableEq, Repr

/-- Mirrors `loadConfig` (main.go:37-48).  `godotenv.Load()` either fails
(the function returns an error, modelled as `none`) or succeeds, after which
the four fields are read from the process environment with `os.Getenv`,
which yields `""` for unset variables; `env` is the environment as a total
function with that convention. -/
def loadConfig (dotenvOk : Bool) (env : String → String) : Option Config :=
  if dotenvOk then
    some { apiKey := env "API_KEY"
           openAIKey := env "OPENAI_API_KEY"
           githubToken := env "GITHUB_TOKEN"
           port := env "PORT" }
  else
    none

/-- Mirrors the Go `PRAnalysisRequest` struct (main.go:24-29), the decoded
JSON body of an inbound request. -/
structure PRAnalysisRequest where
  owner : String
  repo : String
  prNumber : Int
  modelType : String
deriving DecidableEq, Repr

/-- Mirrors the Go `PRAnalysisResponse` struct (main.go:31-35).  The
timestamp is an abstract instant (the value `time.Now()` returned during
handling). -/
structure PRAnalysisResponse where
  analysis : String
  timestamp : Nat
  modelUsed : String
deriving DecidableEq, Repr

/-- One outbound network call, recorded with the data the Go code sends:
the GitHub GET carries the request URL, the OpenAI chat-completion call
carries the single user-message content. -/
inductive NetCall
  | github (url : String)
  | openaiChat (prompt : String)
deriving DecidableEq, Repr

/-- The URL built by `fetchPRChanges` (main.go:112) via `fmt.Sprintf`. -/
def githubURL (owner repo : String) (prNumber : Int) : String :=
  "https://api.github.com/repos/" ++ owner ++ "/" ++ repo ++ "/pulls/" ++
    toString prNumber

/-- One element per call to `resp.Body.Read` in the success-path loop
(main.go:144-152): the bytes that read delivered (as a string, possibly
empty) and whether the same call also returned a non-nil error (io.EOF or
otherwise).  Go's `io.Reader` may return data together with the error on
the same call. -/
abbrev BodyReads := List (String × Bool)

/-- Mirrors the read loop of `fetchPRChanges` (main.go:142-152): each
iteration writes the delivered bytes to the builder, then breaks if the
read also returned an error. -/
def readLoop : BodyReads → String
  | [] => ""
  | (chunk, isErr) :: rest => if isErr then chunk else chunk ++ readLoop rest

deriving instance DecidableEq for Except

/-- The HTTP response the GitHub transport hands back from `client.Do`:
its status code, the result of the `io.ReadAll` performed on the
diagnostic (non-200) path (main.go:131), and the sequence of `Read`
results consumed on the success path. -/
structure HttpResp where
  statusCode : Nat
  errBodyReadAll : Except Unit String
  bodyReads : BodyReads
deriving DecidableEq, Repr

/-- The GitHub-side externals of one `fetchPRChanges` call: whether
`http.NewRequest` succeeds (main.go:113), and the outcome of `client.Do`
(main.go:123) — a transport error or an `HttpResp`. -/
structure GithubAPI where
  newRequestOk : Bool
  doResult : Except String HttpResp
deriving DecidableEq, Repr

/-- Outcome of `fetchPRChanges`: a diff string, an error returned to the
caller, or `fatal` for the `log.Fatal(err)` on main.go:133, which
terminates the whole process. -/
inductive FetchOutcome
  | ok (diff : String)
  | err (msg : String)
  | fatal
deriving DecidableEq, Repr

/-- Mirrors `fetchPRChanges` (main.go:104-155).  Control flow in source
order: load config (propagating its error), build the request (propagating
a `NewRequest` error before any network call), perform the GET (the one
network call, recorded in the trace), then: on a transport error return it;
on a non-200 status run `io.ReadAll` on the body — `log.Fatal` if that
read fails, otherwise return the "GitHub API returned status: %d" error;
on status 200 run the read loop and return the accumulated text. -/
def fetchPRChanges (dotenvOk : Bool) (env : String → String) (gh : GithubAPI)
    (owner repo : String) (prNumber : Int) : FetchOutcome × List NetCall :=
  match loadConfig dotenvOk env with
  | none => (.err "error loading .env file", [])
  | some _ =>
    if gh.newRequestOk then
      match gh.doResult with
      | .error e => (.err e, [.github (githubURL owner repo prNumber)])
      | .ok resp =>
        if resp.statusCode ≠ 200 then
          match resp.errBodyReadAll with
          | .error _ => (.fatal, [.github (githubURL owner repo prNumber)])
          | .ok _ =>
            (.err ("GitHub API returned status: " ++ toString resp.statusCode),
             [.github (githubURL owner repo prNumber)])
        else
          (.ok (readLoop resp.bodyReads),
           [.github (githubURL owner repo prNumber)])
    else
      (.err "failed to create request", [])

/-- The OpenAI-side externals of one `analyzeChanges` call: the result of
`client.CreateChatCompletion` (main.go:166) — an error, or the list of the
returned choices' message contents. -/
structure OpenAIAPI where
  result : Except String (List String)
deriving DecidableEq, Repr

/-- Outcome of `analyzeChanges`: an analysis string, an error returned to
the caller, or `panicked` for the unguarded `resp.Choices[0]` index on
main.go:184, which raises an index-out-of-range runtime panic when the
provider returns no choices. -/
inductive AnalyzeOutcome
  | ok (analysis : String)
  | err (msg : String)
  | panicked
deriving DecidableEq, Repr

/-- The single user-message content built on main.go:173-176. -/
def openaiPrompt (changes : String) : String :=
  "Please analyze the following code changes and provide a detailed review:\n\n"
    ++ changes

/-- Mirrors `analyzeChanges` (main.go:157-193): load config (propagating
its error), then dispatch on the tag.  `"openai"` performs the provider
call (recorded in the trace) and takes the first choice — without any
empty-slice guard, so an empty choice list panics; `"claude"` returns the
unimplemented error without any network call; any other tag returns an
"unsupported model type" error naming it. -/
def analyzeChanges (dotenvOk : Bool) (env : String → String) (ai : OpenAIAPI)
    (changes modelType : String) : AnalyzeOutcome × List NetCall :=
  match loadConfig dotenvOk env with
  | none => (.err "error loading .env file", [])
  | some _ =>
    match modelType with
    | "openai" =>
      match ai.result with
      | .error e => (.err e, [.openaiChat (openaiPrompt changes)])
      | .ok [] => (.panicked, [.openaiChat (openaiPrompt changes)])
      | .ok (c :: _) => (.ok c, [.openaiChat (openaiPrompt changes)])
    | "claude" => (.err "Claude integration not implemented yet", [])
    | other => (.err ("unsupported model type: " ++ other), [])

/-- The observable outcome of one inbound request: an `http.Error` write
(status plus plain-text message), a 200 JSON success body, `fatal` when
the call path hit `log.Fatal`, or `panicked` when it hit a runtime
panic — in the last two cases no HTTP response is produced. -/
inductive HResult
  | httpError (status : Nat) (msg : String)
  | success (body : PRAnalysisResponse)
  | fatal
  | panicked
deriving DecidableEq, Repr

/-- The HTTP status the handler responded with, if it responded at all:
`none` when the call path died in `log.Fatal` or a panic. -/
def HResult.respondsStatus : HResult → Option Nat
  | .httpError s _ => some s
  | .success _ => some 200
  | .fatal => none
  | .panicked => none

/-- All externals of one request, fixed for its duration: the dotenv/env
state read by each of the per-call `loadConfig` invocations, the GitHub
transport and the OpenAI client behaviour. -/
structure World where
  dotenvOk : Bool
  env : String → String
  gh : GithubAPI
  ai : OpenAIAPI

/-- Mirrors `analyzePRHandler` (main.go:68-102), the inner handler reached
only after the middleware: reject non-POST with 405; reject an
undecodable body with 400; fetch the diff (500 with an
"Error fetching PR changes: …" message on error); dispatch the analysis
(500 with an "Error analyzing changes: …" message on error); on success
encode the JSON response with `time.Now()` as timestamp and the request's
model tag.  The trace accumulates the network calls in order. -/
def analyzePRHandler (w : World) (now : Nat) (method : String)
    (body : Except Unit PRAnalysisRequest) : HResult × List NetCall :=
  if method ≠ "POST" then (.httpError 405 "Method not allowed", [])
  else
    match body with
    | .error _ => (.httpError 400 "Invalid request body", [])
    | .ok req =>
      match fetchPRChanges w.dotenvOk w.env w.gh req.owner req.repo req.prNumber with
      | (.fatal, calls) => (.fatal, calls)
      | (.err e, calls) =>
        (.httpError 500 ("Error fetching PR changes: " ++ e), calls)
      | (.ok changes, calls) =>
        match analyzeChanges w.dotenvOk w.env w.ai changes req.modelType with
        | (.panicked, calls2) => (.panicked, calls ++ calls2)
        | (.err e, calls2) =>
          (.httpError 500 ("Error analyzing changes: " ++ e), calls ++ calls2)
        | (.ok analysis, calls2) =>
          (.success { analysis := analysis, timestamp := now, modelUsed := req.modelType },
           calls ++ calls2)

/-- Decision taken by the `validateAPIKey` middleware (main.go:50-66). -/
inductive GateResult
  | authorized
  | unauthorized
  | configError
deriving DecidableEq, Repr

/-- Mirrors the `validateAPIKey` middleware body (main.go:51-65):
`r.Header.Get("X-API-Key")` yields `""` for a missing header (the header
is modelled as `Option String`), config-load failure yields a 500, a
mismatch against `config.APIKey` yields a 401, and only a match delegates
to the wrapped handler. -/
def validateAPIKey (dotenvOk : Bool) (env : String → String)
    (headerXAPIKey : Option String) : GateResult :=
  match loadConfig dotenvOk env with
  | none => .configError
  | some config =>
    if headerXAPIKey.getD "" ≠ config.apiKey then .unauthorized else .authorized

/-- The full `/analyze-pr` endpoint as registered on main.go:201:
`validateAPIKey(analyzePRHandler)`.  The middleware runs first and returns
without invoking the handler (hence with an empty network trace) on config
failure or key mismatch. -/
def servePR (w : World) (now : Nat) (headerXAPIKey : Option String)
    (method : String) (body : Except Unit PRAnalysisRequest) :
    HResult × List NetCall :=
  match validateAPIKey w.dotenvOk w.env headerXAPIKey with
  | .configError => (.httpError 500 "Internal server error", [])
  | .unauthorized => (.httpError 401 "Unauthorized", [])
  | .authorized => analyzePRHandler w now method body

/-- Helper: the read loop over a stream of error-free reads followed by a
final read that delivers its data together with the end-of-stream error
accumulates every delivered chunk, in order and in full. -/
theorem readLoop_chunks (chunks : List String) (lastChunk : String) :
    readLoop (chunks.map (fun c => (c, false)) ++ [(lastChunk, true)]) =
      chunks.foldr (fun a b => a ++ b) lastChunk := by
  induction chunks with
  | nil => simp [readLoop]
  | cons c cs ih => simp [readLoop, ih]

/-- A concrete environment whose configured shared secret is "s3cret". -/
def secretEnv : String → String :=
  fun name => if name = "API_KEY" then "s3cret" else ""

/-- A GitHub transport whose GET fails at the transport level. -/
def offlineGithub : GithubAPI :=
  { newRequestOk := true, doResult := .error "offline" }

/-- An OpenAI client whose chat-completion call fails. -/
def offlineOpenAI : OpenAIAPI := { result := .error "offline" }

/-- A request world with the "s3cret" shared secret and offline backends. -/
def secretWorld : World :=
  { dotenvOk := true, env := secretEnv, gh := offlineGithub, ai := offlineOpenAI }

/-- C1: a request to /analyze-pr whose X-API-Key header is missing or
differs from the configured shared secret is answered 401 and no outbound
network call (diff fetch or provider call) is attempted: the middleware
rejects before any network I/O. -/
theorem C1_auth_gate_rejects_without_network (w : World) (now : Nat)
    (headerXAPIKey : Option String) (method : String)
    (body : Except Unit PRAnalysisRequest)
    (hconf : w.dotenvOk = true)
    (hkey : headerXAPIKey.getD "" ≠ w.env "API_KEY") :
    servePR w now headerXAPIKey method body = (.httpError 401 "Unauthorized", []) := by
  simp [servePR, validateAPIKey, loadConfig, hconf, hkey]

/-- C1 witness: a concrete request with the header omitted against a
non-empty configured secret is rejected 401 with an empty network trace. -/
theorem C1_auth_gate_rejects_without_network_witness :
    ((none : Option String).getD "" ≠ secretEnv "API_KEY") ∧
    servePR secretWorld 0 none "POST" (.error ()) = (.httpError 401 "Unauthorized", []) :=
  ⟨by decide,
   C1_auth_gate_rejects_without_network secretWorld 0 none "POST" (.error ())
     rfl (by decide)⟩

/-- C10: when config loading succeeds, the gate authorizes exactly when the
X-API-Key header value (empty string when the header is absent) equals the
API_KEY environment value (empty string when unset); in particular, with
API_KEY unset, a request omitting the header is authorized and reaches the
inner handler (observable here as the inner handler's 405 for a GET). -/
theorem C10_gate_authorizes_iff_key_matches :
    (∀ (env : String → String) (headerXAPIKey : Option String),
        validateAPIKey true env headerXAPIKey = .authorized ↔
          headerXAPIKey.getD "" = env "API_KEY")
    ∧ validateAPIKey true (fun _ => "") none = .authorized
    ∧ (servePR { dotenvOk := true, env := fun _ => "",
                 gh := offlineGithub, ai := offlineOpenAI }
         0 none "GET" (.error ())).1 = .httpError 405 "Method not allowed" := by
  refine ⟨fun env headerXAPIKey => ?_, by decide, by decide⟩
  by_cases hkey : headerXAPIKey.getD "" = env "API_KEY" <;>
    simp [validateAPIKey, loadConfig, hkey]

/-- C8 counterexample: the middleware runs before the method check, so a
concrete GET without the required X-API-Key header is answered 401, not
405 — the claim that every non-POST request gets 405 fails at this input. -/
theorem C8_nonpost_unauthenticated_gets_401 :
    (servePR secretWorld 0 none "GET" (.error ())).1.respondsStatus ≠ some 405 ∧
    (servePR secretWorld 0 none "GET" (.error ())).1 = .httpError 401 "Unauthorized" := by
  decide

/-- C8 amended: a non-POST request that passes the authentication gate
(config loads and the X-API-Key header matches the configured secret) is
answered 405. -/
theorem C8_authorized_nonpost_gets_405 (w : World) (now : Nat)
    (headerXAPIKey : Option String) (method : String)
    (body : Except Unit PRAnalysisRequest)
    (hconf : w.dotenvOk = true)
    (hkey : headerXAPIKey.getD "" = w.env "API_KEY")
    (hmethod : method ≠ "POST") :
    servePR w now headerXAPIKey method body = (.httpError 405 "Method not allowed", []) := by
  simp [servePR, validateAPIKey, analyzePRHandler, loadConfig, hconf, hkey, hmethod]

/-- C8 amended witness: a concrete authenticated GET is answered 405. -/
theorem C8_authorized_nonpost_gets_405_witness :
    servePR secretWorld 0 (some "s3cret") "GET" (.error ()) =
      (.httpError 405 "Method not allowed", []) :=
  C8_authorized_nonpost_gets_405 secretWorld 0 (some "s3cret") "GET" (.error ())
    rfl (by decide) (by decide)

/-- C4: on a successful diff fetch the returned string is the
concatenation of every chunk the transport delivered, in order and
untransformed, for any number of chunks and even when the final read
returns its data together with the end-of-stream signal on the same call. -/
theorem C4_fetch_success_verbatim (env : String → String) (gh : GithubAPI)
    (owner repo : String) (prNumber : Int) (resp : HttpResp)
    (chunks : List String) (lastChunk : String)
    (hreq : gh.newRequestOk = true)
    (hdo : gh.doResult = .ok resp)
    (hstatus : resp.statusCode = 200)
    (hreads : resp.bodyReads = chunks.map (fun c => (c, false)) ++ [(lastChunk, true)]) :
    (fetchPRChanges true env gh owner repo prNumber).1 =
      .ok (chunks.foldr (fun a b => a ++ b) lastChunk) := by
  simp [fetchPRChanges, loadConfig, hreq, hdo, hstatus, hreads, readLoop_chunks]

/-- A 200 response delivered as the chunk "ab" followed by a read that
returns "cd" together with the end-of-stream error. -/
def twoChunkResp : HttpResp :=
  { statusCode := 200, errBodyReadAll := .ok "",
    bodyReads := [("ab", false), ("cd", true)] }

/-- A GitHub transport answering with `twoChunkResp`. -/
def twoChunkGithub : GithubAPI :=
  { newRequestOk := true, doResult := .ok twoChunkResp }

/-- C4 witness: the concrete two-chunk stream "ab", "cd"+EOF is fetched
back as exactly "abcd". -/
theorem C4_fetch_success_verbatim_witness :
    (fetchPRChanges true secretEnv twoChunkGithub "octo" "hello" 7).1 = .ok "abcd" :=
  (C4_fetch_success_verbatim secretEnv twoChunkGithub "octo" "hello" 7 twoChunkResp
      ["ab"] "cd" rfl rfl rfl rfl).trans (by decide)

/-- A 404 response whose diagnostic body read fails. -/
def crashResp : HttpResp :=
  { statusCode := 404, errBodyReadAll := .error (), bodyReads := [] }

/-- A GitHub transport answering with `crashResp`. -/
def crashGithub : GithubAPI :=
  { newRequestOk := true, doResult := .ok crashResp }

/-- A request world whose diff fetch hits the 404-with-unreadable-body
response. -/
def crashWorld : World :=
  { dotenvOk := true, env := secretEnv, gh := crashGithub, ai := offlineOpenAI }

/-- A well-formed analysis request selecting the openai backend. -/
def sampleReq : PRAnalysisRequest :=
  { owner := "octo", repo := "hello", prNumber := 7, modelType := "openai" }

/-- C5 counterexample: on a concrete authenticated, well-formed request
whose upstream answers 404 but whose diagnostic body read fails, the
handler produces no HTTP response at all (the process dies in log.Fatal),
so in particular it does not respond 500. -/
theorem C5_non2xx_unreadable_body_no_500 :
    (servePR crashWorld 0 (some "s3cret") "POST" (.ok sampleReq)).1.respondsStatus ≠ some 500 ∧
    (servePR crashWorld 0 (some "s3cret") "POST" (.ok sampleReq)).1.respondsStatus = none ∧
    (servePR crashWorld 0 (some "s3cret") "POST" (.ok sampleReq)).1 = .fatal := by
  decide

/-- C5 amended: on every authenticated, well-formed request whose upstream
answers a non-2xx status and whose diagnostic body read succeeds, the
handler responds 500 with a message that ends in that upstream status
code. -/
theorem C5_non2xx_readable_body_gets_500 (w : World) (now : Nat)
    (headerXAPIKey : Option String) (req : PRAnalysisRequest)
    (resp : HttpResp) (diag : String)
    (hconf : w.dotenvOk = true)
    (hkey : headerXAPIKey.getD "" = w.env "API_KEY")
    (hreq : w.gh.newRequestOk = true)
    (hdo : w.gh.doResult = .ok resp)
    (hstatus : resp.statusCode < 200 ∨ 300 ≤ resp.statusCode)
    (hread : resp.errBodyReadAll = .ok diag) :
    (servePR w now headerXAPIKey "POST" (.ok req)).1 =
      .httpError 500 ("Error fetching PR changes: GitHub API returned status: "
        ++ toString resp.statusCode)
    ∧ ∃ a, "Error fetching PR changes: GitHub API returned status: "
        ++ toString resp.statusCode = a ++ toString resp.statusCode := by
  have hne : resp.statusCode ≠ 200 := by omega
  refine ⟨?_, ⟨_, rfl⟩⟩
  simp [servePR, validateAPIKey, analyzePRHandler, fetchPRChanges, loadConfig,
    hconf, hkey, hreq, hdo, hne, hread]
  rw [← String.append_assoc]
  congr 1

/-- A 404 response whose diagnostic body read succeeds. -/
def notFoundResp : HttpResp :=
  { statusCode := 404, errBodyReadAll := .ok "Not Found", bodyReads := [] }

/-- A request world whose diff fetch hits the plain 404 response. -/
def notFoundWorld : World :=
  { dotenvOk := true, env := secretEnv,
    gh := { newRequestOk := true, doResult := .ok notFoundResp },
    ai := offlineOpenAI }

/-- C5 amended witness: a concrete authenticated request against a plain
404 upstream is answered 500 with the status code in the message. -/
theorem C5_non2xx_readable_body_gets_500_witness :
    (servePR notFoundWorld 0 (some "s3cret") "POST" (.ok sampleReq)).1 =
      .httpError 500 "Error fetching PR changes: GitHub API returned status: 404" :=
  ((C5_non2xx_readable_body_gets_500 notFoundWorld 0 (some "s3cret") sampleReq
      notFoundResp "Not Found" rfl (by decide) rfl rfl (by decide) rfl).1).trans
    (by decide)

/-- C2: on a non-success upstream status whose diagnostic body read fails,
`fetchPRChanges` does not surface a fetch error — it calls log.Fatal,
which terminates the process, contrary to the spec's requirement; the
whole request dies without a response. -/
theorem C2_diagnostic_read_failure_is_fatal :
    (fetchPRChanges true secretEnv crashGithub "octo" "hello" 7).1 = .fatal ∧
    (fetchPRChanges true secretEnv crashGithub "octo" "hello" 7).1 ≠
      .err "GitHub API returned status: 404" ∧
    (servePR crashWorld 1 (some "s3cret") "POST" (.ok sampleReq)).1 = .fatal := by
  decide

/-- An OpenAI client whose call succeeds but returns zero choices. -/
def emptyChoicesOpenAI : OpenAIAPI := { result := .ok [] }

/-- A request world in which the diff fetch succeeds and the provider
returns an empty choice list. -/
def emptyChoicesWorld : World :=
  { dotenvOk := true, env := secretEnv, gh := twoChunkGithub,
    ai := emptyChoicesOpenAI }

/-- C3: when the openai call succeeds but returns no completion choices,
the dispatcher does not return a provider error — it indexes into the
empty result set (resp.Choices[0]), a runtime panic, and the request dies
without an HTTP response. -/
theorem C3_empty_choices_panics :
    (analyzeChanges true secretEnv emptyChoicesOpenAI "diff text" "openai").1 = .panicked ∧
    (servePR emptyChoicesWorld 0 (some "s3cret") "POST" (.ok sampleReq)).1 = .panicked ∧
    (servePR emptyChoicesWorld 0 (some "s3cret") "POST" (.ok sampleReq)).1.respondsStatus
      = none := by
  decide

/-- C6: on every authenticated, well-formed request with model_type
"claude" whose diff fetch succeeds, the dispatcher returns the
unimplemented-provider error regardless of the diff content, the handler
responds 500, and the message contains "not implemented". -/
theorem C6_claude_unconditionally_not_implemented (w : World) (now : Nat)
    (headerXAPIKey : Option String) (req : PRAnalysisRequest) (resp : HttpResp)
    (hconf : w.dotenvOk = true)
    (hkey : headerXAPIKey.getD "" = w.env "API_KEY")
    (hreq : w.gh.newRequestOk = true)
    (hdo : w.gh.doResult = .ok resp)
    (hstatus : resp.statusCode = 200)
    (hmodel : req.modelType = "claude") :
    (∀ changes, (analyzeChanges true w.env w.ai changes "claude").1 =
        .err "Claude integration not implemented yet")
    ∧ (servePR w now headerXAPIKey "POST" (.ok req)).1 =
        .httpError 500 "Error analyzing changes: Claude integration not implemented yet"
    ∧ ∃ a b, "Error analyzing changes: Claude integration not implemented yet" =
        a ++ "not implemented" ++ b := by
  refine ⟨fun changes => by simp [analyzeChanges, loadConfig], ?_,
    ⟨"Error analyzing changes: Claude integration ", " yet", by decide⟩⟩
  simp [servePR, validateAPIKey, analyzePRHandler, fetchPRChanges, analyzeChanges,
    loadConfig, hconf, hkey, hreq, hdo, hstatus, hmodel]

/-- A well-formed analysis request selecting the claude backend. -/
def claudeReq : PRAnalysisRequest :=
  { owner := "octo", repo := "hello", prNumber := 7, modelType := "claude" }

/-- A request world in which the diff fetch succeeds; the OpenAI client is
offline, which the claude branch never consults. -/
def fetchOkWorld : World :=
  { dotenvOk := true, env := secretEnv, gh := twoChunkGithub, ai := offlineOpenAI }

/-- C6 witness: a concrete authenticated claude request is answered 500
with the "not implemented" message. -/
theorem C6_claude_unconditionally_not_implemented_witness :
    (servePR fetchOkWorld 0 (some "s3cret") "POST" (.ok claudeReq)).1 =
      .httpError 500 "Error analyzing changes: Claude integration not implemented yet" :=
  (C6_claude_unconditionally_not_implemented fetchOkWorld 0 (some "s3cret")
      claudeReq twoChunkResp rfl (by decide) rfl rfl rfl rfl).2.1

/-- C7: on every authenticated, well-formed request whose model_type is
neither "openai" nor "claude" and whose diff fetch succeeds, the
dispatcher returns an "unsupported model type" error naming exactly the
offending tag, and the handler responds 500. -/
theorem C7_unsupported_tag_error_names_tag (w : World) (now : Nat)
    (headerXAPIKey : Option String) (req : PRAnalysisRequest) (resp : HttpResp)
    (hconf : w.dotenvOk = true)
    (hkey : headerXAPIKey.getD "" = w.env "API_KEY")
    (hreq : w.gh.newRequestOk = true)
    (hdo : w.gh.doResult = .ok resp)
    (hstatus : resp.statusCode = 200)
    (hm1 : req.modelType ≠ "openai")
    (hm2 : req.modelType ≠ "claude") :
    (∀ changes, (analyzeChanges true w.env w.ai changes req.modelType).1 =
        .err ("unsupported model type: " ++ req.modelType))
    ∧ (servePR w now headerXAPIKey "POST" (.ok req)).1 =
        .httpError 500 ("Error analyzing changes: unsupported model type: "
          ++ req.modelType) := by
  have hdisp : ∀ changes, analyzeChanges true w.env w.ai changes req.modelType =
      (.err ("unsupported model type: " ++ req.modelType), []) := by
    intro changes
    simp [analyzeChanges, loadConfig, hm1, hm2]
  refine ⟨fun changes => by rw [hdisp changes], ?_⟩
  simp [servePR, validateAPIKey, analyzePRHandler, fetchPRChanges, loadConfig,
    hconf, hkey, hreq, hdo, hstatus, hdisp]
  have hlit : ("Error analyzing changes: " : String) ++ "unsupported model type: " =
      "Error analyzing changes: unsupported model type: " := by decide
  rw [← String.append_assoc, hlit]

/-- A well-formed analysis request selecting an unknown backend tag. -/
def geminiReq : PRAnalysisRequest :=
  { owner := "octo", repo := "hello", prNumber := 7, modelType := "gemini" }

/-- C7 witness: a concrete authenticated request with the unknown tag
"gemini" is answered 500 with a message naming exactly that tag. -/
theorem C7_unsupported_tag_error_names_tag_witness :
    (servePR fetchOkWorld 0 (some "s3cret") "POST" (.ok geminiReq)).1 =
      .httpError 500 "Error analyzing changes: unsupported model type: gemini" :=
  ((C7_unsupported_tag_error_names_tag fetchOkWorld 0 (some "s3cret") geminiReq
      twoChunkResp rfl (by decide) rfl rfl rfl (by decide) (by decide)).2).trans
    (by decide)

/-- C9: on every authenticated POST whose diff fetch succeeds with text T
(the accumulated read-loop text) and whose openai call returns a first
completion A, the handler answers 200 with body
{analysis: A, timestamp: now, model_used: "openai"}, having made exactly
the GitHub fetch followed by the provider call on T. -/
theorem C9_success_response (w : World) (now : Nat)
    (headerXAPIKey : Option String) (req : PRAnalysisRequest) (resp : HttpResp)
    (firstChoice : String) (rest : List String)
    (hconf : w.dotenvOk = true)
    (hkey : headerXAPIKey.getD "" = w.env "API_KEY")
    (hreq : w.gh.newRequestOk = true)
    (hdo : w.gh.doResult = .ok resp)
    (hstatus : resp.statusCode = 200)
    (hmodel : req.modelType = "openai")
    (hai : w.ai.result = .ok (firstChoice :: rest)) :
    servePR w now headerXAPIKey "POST" (.ok req) =
      (.success { analysis := firstChoice, timestamp := now, modelUsed := "openai" },
       [.github (githubURL req.owner req.repo req.prNumber),
        .openaiChat (openaiPrompt (readLoop resp.bodyReads))]) := by
  simp [servePR, validateAPIKey, analyzePRHandler, fetchPRChanges, analyzeChanges,
    loadConfig, hconf, hkey, hreq, hdo, hstatus, hmodel, hai]

/-- An OpenAI client returning the single completion "looks good". -/
def oneChoiceOpenAI : OpenAIAPI := { result := .ok ["looks good"] }

/-- A request world with a successful two-chunk diff fetch and a
one-choice provider result. -/
def successWorld : World :=
  { dotenvOk := true, env := secretEnv, gh := twoChunkGithub, ai := oneChoiceOpenAI }

/-- C9 witness: a concrete authenticated openai request against the
"abcd" diff and the completion "looks good" is answered with the 200 JSON
body {analysis: "looks good", timestamp: 42, model_used: "openai"}, after
exactly the two outbound calls. -/
theorem C9_success_response_witness :
    servePR successWorld 42 (some "s3cret") "POST" (.ok sampleReq) =
      (.success { analysis := "looks good", timestamp := 42, modelUsed := "openai" },
       [.github "https://api.github.com/repos/octo/hello/pulls/7",
        .openaiChat (openaiPrompt "abcd")]) :=
  (C9_success_response successWorld 42 (some "s3cret") sampleReq twoChunkResp
      "looks good" [] rfl (by decide) rfl rfl rfl rfl rfl).trans (by decide)

end KowalskiAPI
